import Mathlib

/-!
Verification of the `careeraibot` webhook relay and edge proxy.

This file gives a shallow embedding of the two request handlers of the
repository:

* `src/api/webhook.js` — the Telegram webhook relay (`handler`): answers
  `pre_checkout_query` updates synchronously, acknowledges warmup pings
  (`update_id` 0 or "0"), and forwards everything else to the downstream
  Python handler, mirroring its response.
* the edge proxy (`fetch` in the unnamed worker file): forwards non-root,
  non-OPTIONS requests to the generative-language API host and adds a CORS
  header to the proxied response.

JavaScript runtime values are modelled by `JSVal`; the platform primitives
`JSON.parse` and `fetch` are modelled as inputs (`Env.parse`,
`Env.approval`, `Env.forward`), so the handlers become pure functions from
a request and an environment to an outcome.  A `TypeError` thrown by the
handler (reachable when `pre_checkout_query.invoice_payload` is truthy but
not a string, so that `.trim()` is called on a non-string) is modelled by
the `HOut.crashed` outcome: the handler sends no response on that path.
-/

mutual

/-- A JavaScript runtime value, as far as the handlers inspect one.
`obj` and `arr` are mutual with field/element lists so that functions over
`JSVal` are structurally recursive.  Numbers are modelled as integers
(the handlers only compare `update_id` against 0 and never do number
arithmetic). -/
inductive JSVal : Type where
  | undefined : JSVal
  | null : JSVal
  | bool (b : Bool) : JSVal
  | num (n : Int) : JSVal
  | str (s : String) : JSVal
  | arr (elems : JSList) : JSVal
  | obj (fields : JSFields) : JSVal

/-- A list of JavaScript values (array elements). -/
inductive JSList : Type where
  | nil : JSList
  | cons (hd : JSVal) (tl : JSList) : JSList

/-- The fields of a JavaScript object, in insertion order. -/
inductive JSFields : Type where
  | nil : JSFields
  | cons (key : String) (val : JSVal) (tl : JSFields) : JSFields

end

/-- Field lookup on an object's field list; `undefined` when absent. -/
def JSFields.get : JSFields → String → JSVal
  | .nil, _ => .undefined
  | .cons k v tl, key => if k == key then v else tl.get key

/-- Models JavaScript property access `v.key`: `undefined` on
non-objects (property access on a primitive boxes it and finds nothing the
handlers use; it only throws on `null`/`undefined`, which the handlers
never dereference). -/
def getField (v : JSVal) (key : String) : JSVal :=
  match v with
  | .obj fs => fs.get key
  | _ => .undefined

/-- JavaScript truthiness: `undefined`, `null`, `false`, `0` and `""` are
falsy, everything else is truthy. -/
def truthy : JSVal → Bool
  | .undefined => false
  | .null => false
  | .bool b => b
  | .num n => n != 0
  | .str s => s != ""
  | .arr _ => true
  | .obj _ => true

/-- The JavaScript `typeof` operator (note `typeof null` is `"object"`,
and arrays are `"object"` too). -/
def jsTypeof : JSVal → String
  | .undefined => "undefined"
  | .null => "object"
  | .bool _ => "boolean"
  | .num _ => "number"
  | .str _ => "string"
  | .arr _ => "object"
  | .obj _ => "object"

/-- JSON string escaping for `JSON.stringify` (quote, backslash and the
common control characters; other characters pass through). -/
def escapeChar (c : Char) : String :=
  if c = '"' then "\\\""
  else if c = '\\' then "\\\\"
  else if c = '\n' then "\\n"
  else if c = '\r' then "\\r"
  else if c = '\t' then "\\t"
  else String.singleton c

/-- A JSON string literal with quotes and escapes, as `JSON.stringify`
prints one. -/
def quoteStr (s : String) : String :=
  "\"" ++ String.join (s.toList.map escapeChar) ++ "\""

mutual

/-- Models `JSON.stringify`.  `none` for `undefined` (where the real
function returns the value `undefined`, not a string); inside objects an
`undefined` field is omitted, inside arrays it prints as `null`. -/
def jsonStringify : JSVal → Option String
  | .undefined => none
  | .null => some "null"
  | .bool b => some (if b then "true" else "false")
  | .num n => some (toString n)
  | .str s => some (quoteStr s)
  | .arr xs => some ("[" ++ String.intercalate "," (stringifyElems xs) ++ "]")
  | .obj fs => some ("\x7b" ++ String.intercalate "," (stringifyFields fs) ++ "\x7d")

/-- Array elements of `JSON.stringify`; `undefined` elements print as
`null`. -/
def stringifyElems : JSList → List String
  | .nil => []
  | .cons v tl =>
    (match jsonStringify v with
     | none => "null"
     | some sv => sv) :: stringifyElems tl

/-- Object fields of `JSON.stringify`; fields whose value is `undefined`
are omitted. -/
def stringifyFields : JSFields → List String
  | .nil => []
  | .cons k v tl =>
    match jsonStringify v with
    | none => stringifyFields tl
    | some sv => (quoteStr k ++ ":" ++ sv) :: stringifyFields tl

end

/-- `JSON.stringify` as the handler uses it: every value it serialises is
an object or array, for which `jsonStringify` is `some`; default to
`"null"` otherwise. -/
def stringifyText (v : JSVal) : String :=
  (jsonStringify v).getD "null"

/-- The result object of a successful `fetch`: `ok`, `status` and the
body text `text()` yields. -/
structure FetchResp : Type where
  ok : Bool
  status : Nat
  text : String
deriving DecidableEq, Repr

/-- The outcome of an outbound `fetch`: a response, or a network error
(the promise rejects). -/
inductive FetchOutcome : Type where
  | success (r : FetchResp) : FetchOutcome
  | failure : FetchOutcome
deriving DecidableEq, Repr

/-- The inbound HTTP request as `handler` reads it: `req.method` (absent
models `undefined`), `req.body` (already-parsed object, raw string, or
anything else the platform produced) and `req.headers.host`. -/
structure Req : Type where
  method : Option String
  body : JSVal
  host : Option String

/-- The ambient environment of one invocation: the `JSON.parse` builtin
(`none` models a parse `throw`), `process.env.BOT_TOKEN`, and the outcomes
the two possible outbound `fetch` calls would have. -/
structure Env : Type where
  parse : String → Option JSVal
  botToken : Option String
  approval : FetchOutcome
  forward : FetchOutcome

/-- One outbound POST the handler performed (or attempted): the URL and
the serialised request body. -/
structure OutCall : Type where
  url : String
  body : String
deriving DecidableEq, Repr

/-- The HTTP response sent to the original caller: status code and body
text. -/
structure HResp : Type where
  status : Nat
  body : String
deriving DecidableEq, Repr

/-- The observable outcome of one `handler` invocation: either exactly one
response together with the list of outbound calls made before it, or a
crash (an uncaught `TypeError`: the async function rejects and this code
sends no response), again with the calls made before the throw. -/
inductive HOut : Type where
  | responded (resp : HResp) (calls : List OutCall) : HOut
  | crashed (calls : List OutCall) : HOut
deriving DecidableEq, Repr

/-- JavaScript `toUpperCase` on the character list of a string (HTTP
method names are ASCII, where `Char.toUpper` agrees with it). -/
def jsToUpper (s : String) : String :=
  ⟨s.data.map Char.toUpper⟩

/-- `(req.method || '').toUpperCase()`. -/
def jsMethod (req : Req) : String :=
  jsToUpper (req.method.getD "")

/-- Lines 27–34 of `webhook.js`: a string body goes through `JSON.parse`
(`none` on throw), any other body is used as-is. -/
def parsedBody (env : Env) (req : Req) : Option JSVal :=
  match req.body with
  | .str s => env.parse s
  | v => some v

/-- Line 35: `!(!update || typeof update !== 'object')`. -/
def isValidUpdate (v : JSVal) : Bool :=
  truthy v && (jsTypeof v == "object")

/-- Line 41: `uid === 0 || uid === '0'` (strict equality). -/
def isWarmId (v : JSVal) : Bool :=
  match v with
  | .num 0 => true
  | .str "0" => true
  | _ => false

/-- JavaScript `String.prototype.trim`, on the character list of the
string: drop leading and trailing whitespace. -/
def jsTrim (s : String) : String :=
  ⟨((s.data.dropWhile Char.isWhitespace).reverse.dropWhile Char.isWhitespace).reverse⟩

/-- JavaScript `String.prototype.startsWith`, on the character lists. -/
def jsStartsWith (s p : String) : Bool :=
  p.data.isPrefixOf s.data

/-- Line 55, `(pq.invoice_payload || '').trim()`: a falsy payload is
defaulted to `""`; a truthy string is trimmed; a truthy non-string has no
`.trim` method, so the expression throws a `TypeError` (`.error ()`). -/
def payloadResult (v : JSVal) : Except Unit String :=
  if truthy v then
    match v with
    | .str s => .ok (jsTrim s)
    | _ => .error ()
  else .ok ""

/-- Line 61: the answerPreCheckoutQuery URL, with
`process.env.BOT_TOKEN || ''` interpolated. -/
def approvalUrl (botToken : Option String) : String :=
  "https://api.telegram.org/bot" ++ botToken.getD "" ++ "/answerPreCheckoutQuery"

/-- Line 58: the rejection message attached as `error_message`. -/
def errorMessageText : String :=
  "Неверный счёт. Используйте кнопку «Купить Premium» из бота."

/-- Lines 56–58: the body of the approval call, built from `pq` and the
trimmed payload: `{pre_checkout_query_id: pq.id, ok}` plus
`error_message` when `ok` is false. -/
def approvalReqBody (pq : JSVal) (payload : String) : JSVal :=
  let ok := jsStartsWith payload "premium_"
  .obj (.cons "pre_checkout_query_id" (getField pq "id")
    (.cons "ok" (.bool ok)
      (if ok then .nil else .cons "error_message" (.str errorMessageText) .nil)))

/-- Lines 78–79: the downstream handler URL, defaulting the host. -/
def forwardUrl (req : Req) : String :=
  "https://" ++ req.host.getD "careeraibot.vercel.app" ++ "/api/webhook-handler"

/-- The body text `{"ok":true}` the handler sends on success paths. -/
def okTrueText : String :=
  stringifyText (.obj (.cons "ok" (.bool true) .nil))

/-- The body text `{"ok":false}` the handler sends on failure paths. -/
def okFalseText : String :=
  stringifyText (.obj (.cons "ok" (.bool false) .nil))

/-- The webhook relay, `module.exports = async function handler(req, res)`
in `src/api/webhook.js`, as a pure function of the request and the
environment.  Branch order follows the source: GET, non-POST, body parse,
warmup id, pre-checkout, forward. -/
def handler (env : Env) (req : Req) : HOut :=
  if jsMethod req == "GET" then
    .responded ⟨200, okTrueText⟩ []
  else if jsMethod req != "POST" then
    .responded ⟨405, okFalseText⟩ []
  else
    match parsedBody env req with
    | none => .responded ⟨400, okFalseText⟩ []
    | some update =>
      if !isValidUpdate update then
        .responded ⟨400, okFalseText⟩ []
      else if isWarmId (getField update "update_id") then
        .responded ⟨200, okTrueText⟩ []
      else if truthy (getField update "pre_checkout_query") then
        match payloadResult
          (getField (getField update "pre_checkout_query") "invoice_payload") with
        | .error _ => .crashed []
        | .ok payload =>
          -- the fetch outcome (env.approval) is only logged; the
          -- response is 200 {ok:true} either way
          .responded ⟨200, okTrueText⟩
            [⟨approvalUrl env.botToken,
              stringifyText (approvalReqBody (getField update "pre_checkout_query") payload)⟩]
      else
        match env.forward with
        | .success r =>
          .responded ⟨r.status, r.text⟩ [⟨forwardUrl req, stringifyText update⟩]
        | .failure =>
          .responded ⟨502, okFalseText⟩ [⟨forwardUrl req, stringifyText update⟩]

/-- The request as the edge proxy reads it: `new URL(request.url)` gives
`pathname` and `search` (the query string including its leading `?`, or
`""`), plus `request.method`. -/
structure ProxyReq : Type where
  pathname : String
  search : String
  method : String

/-- An HTTP response in the proxy's world: status, header list (in order;
all header names the proxy touches appear in a single spelling, so exact
string comparison models `Headers` adequately) and optional body text. -/
structure ProxyResp : Type where
  status : Nat
  headers : List (String × String)
  body : Option String
deriving DecidableEq, Repr

/-- The outcome of the proxy's upstream `fetch`: a response whose status,
headers and body the proxy copies, or a thrown error with its `message`. -/
inductive UpstreamOutcome : Type where
  | success (r : ProxyResp) : UpstreamOutcome
  | failure (message : String) : UpstreamOutcome
deriving DecidableEq, Repr

/-- The environment of one proxy invocation: what the upstream `fetch`
would yield. -/
structure ProxyEnv : Type where
  upstream : UpstreamOutcome

/-- `Headers.set`: replace the value of an existing header, else append. -/
def headersSet : List (String × String) → String → String → List (String × String)
  | [], k, v => [(k, v)]
  | (k0, v0) :: tl, k, v =>
    if k0 == k then (k, v) :: tl else (k0, v0) :: headersSet tl k v

/-- `Headers.get`: the value of the first header with the given name. -/
def headersGet : List (String × String) → String → Option String
  | [], _ => none
  | (k0, v0) :: tl, k => if k0 == k then some v0 else headersGet tl k

/-- What one proxy invocation did: the response returned to the caller,
and the proxied URL when the upstream fetch was attempted. -/
structure ProxyOut : Type where
  resp : ProxyResp
  proxied : Option String
deriving DecidableEq, Repr

/-- The upstream host constant `externalUrl` of the worker. -/
def externalUrl : String := "https://generativelanguage.googleapis.com"

/-- The root-path body `{"status":"ok","message":"Gemini API Proxy"}`. -/
def rootBodyText : String :=
  stringifyText (.obj (.cons "status" (.str "ok")
    (.cons "message" (.str "Gemini API Proxy") .nil)))

/-- The edge proxy's `fetch(request)` method (the unnamed worker source
file), as a pure function.  Branch order follows the source: root path,
CORS preflight, forward.  `new Response(response.body, response)` copies
status, headers and body from the upstream response; the proxy then sets
`Access-Control-Allow-Origin: *` on the copy.  A thrown error yields a 500
JSON body with the error message and no CORS header. -/
def workerFetch (env : ProxyEnv) (req : ProxyReq) : ProxyOut :=
  if req.pathname == "/" || req.pathname == "" then
    ⟨⟨200, [("Content-Type", "application/json")], some rootBodyText⟩, none⟩
  else if req.method == "OPTIONS" then
    ⟨⟨200, [("Access-Control-Allow-Origin", "*"),
            ("Access-Control-Allow-Methods", "GET, POST, OPTIONS"),
            ("Access-Control-Allow-Headers", "*")], none⟩, none⟩
  else
    let proxiedUrl := externalUrl ++ req.pathname ++ req.search
    match env.upstream with
    | .success r =>
      ⟨⟨r.status, headersSet r.headers "Access-Control-Allow-Origin" "*", r.body⟩,
        some proxiedUrl⟩
    | .failure msg =>
      ⟨⟨500, [("Content-Type", "application/json")],
          some (stringifyText (.obj (.cons "error" (.str msg) .nil)))⟩,
        some proxiedUrl⟩

/-- An update object carrying a pre-checkout query whose `invoice_payload`
is the given value (and a nonzero `update_id`). -/
def preCheckoutUpdate (payload : JSVal) : JSVal :=
  .obj (.cons "update_id" (.num 5)
    (.cons "pre_checkout_query"
      (.obj (.cons "id" (.str "q1") (.cons "invoice_payload" payload .nil))) .nil))

/-- A baseline environment for concrete runs: parsing always throws, the
bot token is set, both outbound fetches would fail. -/
def envBase : Env := ⟨fun _ => none, some "TOKEN", .failure, .failure⟩

/-- An environment whose downstream forward succeeds with status 201. -/
def envFwdOk : Env := ⟨fun _ => none, none, .failure, .success ⟨true, 201, "resp-body"⟩⟩

/-- An environment whose downstream forward succeeds with status 418. -/
def envTeapot : Env := ⟨fun _ => none, none, .failure, .success ⟨false, 418, "teapot"⟩⟩

/-- A GET request (with a non-object body, to show the body is ignored). -/
def reqGet : Req := ⟨some "GET", .num 7, none⟩

/-- A POST whose string body is not valid JSON. -/
def reqBadJson : Req := ⟨some "POST", .str "not json", none⟩

/-- An ordinary update that is neither warmup nor pre-checkout. -/
def fwdUpdate : JSVal := .obj (.cons "update_id" (.num 9) .nil)

/-- A POST carrying `fwdUpdate`, with an explicit Host header. -/
def reqFwd : Req := ⟨some "POST", fwdUpdate, some "example.org"⟩

/-- A warmup POST: `update_id` 0, with a pre-checkout query also present. -/
def reqWarm : Req :=
  ⟨some "POST",
    .obj (.cons "update_id" (.num 0)
      (.cons "pre_checkout_query" (.obj (.cons "id" (.str "w") .nil)) .nil)),
    none⟩

/-- A POST with a valid premium invoice payload. -/
def reqPremium : Req := ⟨some "POST", preCheckoutUpdate (.str "premium_123"), none⟩

/-- A POST with a pre-checkout query whose payload is the number 1. -/
def reqPayloadNum1 : Req := ⟨some "POST", preCheckoutUpdate (.num 1), none⟩

/-- A POST with a pre-checkout query whose payload is an empty object. -/
def reqPayloadObj : Req := ⟨some "POST", preCheckoutUpdate (.obj .nil), none⟩

/-- A POST with a pre-checkout query whose payload is `true`. -/
def reqPayloadTrue : Req := ⟨some "POST", preCheckoutUpdate (.bool true), none⟩

/-- A POST with a pre-checkout query whose payload is the number 5. -/
def reqPayloadNum5 : Req := ⟨some "POST", preCheckoutUpdate (.num 5), none⟩

/-- A POST whose pre-checkout query has no `invoice_payload` field. -/
def reqNoPayload : Req :=
  ⟨some "POST",
    .obj (.cons "update_id" (.num 5)
      (.cons "pre_checkout_query" (.obj (.cons "id" (.str "q2") .nil)) .nil)),
    none⟩

/-- A proxy environment whose upstream fetch succeeds with one header. -/
def proxyEnvOk : ProxyEnv := ⟨.success ⟨200, [("X-Up", "1")], some "body"⟩⟩

/-- A proxy environment whose upstream fetch throws. -/
def proxyEnvErr : ProxyEnv := ⟨.failure "fetch failed"⟩

/-- A non-root, non-OPTIONS proxy request with a query string. -/
def proxyReqModels : ProxyReq := ⟨"/v1/models", "?key=abc", "POST"⟩

/-- A non-root GET proxy request without a query string. -/
def proxyReqPlain : ProxyReq := ⟨"/v1/models", "", "GET"⟩

/-- Changing the recorded approval-fetch outcome does not change how the
body is parsed (the parse function is a different environment field). -/
theorem parsedBody_set_approval (env : Env) (a : FetchOutcome) (req : Req) :
    parsedBody { env with approval := a } req = parsedBody env req := by
  cases hb : req.body <;> simp [parsedBody, hb]

/-- C8: a GET request is answered 200 `{ok:true}` with no outbound calls,
regardless of the body. -/
theorem c8_get_always_ok (env : Env) (req : Req)
    (hm : jsMethod req = "GET") :
    handler env req = .responded ⟨200, okTrueText⟩ [] := by
  simp [handler, hm]

/-- Witness for C8 at a concrete GET request with a numeric body. -/
theorem c8_get_always_ok_witness :
    handler envBase reqGet = .responded ⟨200, okTrueText⟩ [] :=
  c8_get_always_ok envBase reqGet (by rfl)

/-- C2: a POST whose body parses to a valid update with `update_id` 0 or
"0" is answered 200 `{ok:true}` with no outbound calls, even when a
pre-checkout query is present. -/
theorem c2_warmup_no_calls (env : Env) (req : Req) (update : JSVal)
    (hm : jsMethod req = "POST")
    (hp : parsedBody env req = some update)
    (hv : isValidUpdate update = true)
    (hw : isWarmId (getField update "update_id") = true) :
    handler env req = .responded ⟨200, okTrueText⟩ [] := by
  simp [handler, hm, hp, hv, hw]

/-- Witness for C2 at a concrete warmup POST that also carries a
pre-checkout query. -/
theorem c2_warmup_no_calls_witness :
    handler envBase reqWarm = .responded ⟨200, okTrueText⟩ [] :=
  c2_warmup_no_calls envBase reqWarm reqWarm.body (by rfl) (by rfl)
    (by rfl) (by rfl)

/-- C5: a POST whose body fails to parse (string body, `JSON.parse`
throws) or parses to a non-object is answered 400 `{ok:false}` with no
outbound calls. -/
theorem c5_bad_body_400 (env : Env) (req : Req)
    (hm : jsMethod req = "POST")
    (hp : parsedBody env req = none ∨
      ∃ update, parsedBody env req = some update ∧ isValidUpdate update = false) :
    handler env req = .responded ⟨400, okFalseText⟩ [] := by
  rcases hp with hp | ⟨update, hp, hv⟩ <;> simp [handler, hm, hp]
  intro h
  simp [hv] at h

/-- Witness for C5 at a concrete POST whose string body is rejected by the
parse function. -/
theorem c5_bad_body_400_witness :
    handler envBase reqBadJson = .responded ⟨400, okFalseText⟩ [] :=
  c5_bad_body_400 envBase reqBadJson (by rfl) (Or.inl (by rfl))

/-- C3: a POST that is neither warmup nor pre-checkout makes exactly one
downstream call carrying the serialised update, and the response mirrors
the downstream status and body; a network failure yields 502 `{ok:false}`. -/
theorem c3_forward_mirrors (env : Env) (req : Req) (update : JSVal)
    (hm : jsMethod req = "POST")
    (hp : parsedBody env req = some update)
    (hv : isValidUpdate update = true)
    (hw : isWarmId (getField update "update_id") = false)
    (hq : truthy (getField update "pre_checkout_query") = false) :
    (∀ r, env.forward = .success r →
      handler env req =
        .responded ⟨r.status, r.text⟩ [⟨forwardUrl req, stringifyText update⟩]) ∧
    (env.forward = .failure →
      handler env req =
        .responded ⟨502, okFalseText⟩ [⟨forwardUrl req, stringifyText update⟩]) := by
  constructor
  · intro r hr
    simp [handler, hm, hp, hv, hw, hq, hr]
  · intro hr
    simp [handler, hm, hp, hv, hw, hq, hr]

/-- Witness for C3 at a concrete POST whose downstream responds 201. -/
theorem c3_forward_mirrors_witness :
    handler envFwdOk reqFwd =
      .responded ⟨201, "resp-body"⟩ [⟨forwardUrl reqFwd, stringifyText fwdUpdate⟩] :=
  (c3_forward_mirrors envFwdOk reqFwd fwdUpdate (by rfl) (by rfl) (by rfl)
    (by rfl) (by rfl)).1 ⟨true, 201, "resp-body"⟩ (by rfl)

/-- C1 fails as stated: this POST body has a truthy pre-checkout query
and a nonzero `update_id`, yet the handler makes no approval call and
sends no response — `invoice_payload` is the truthy number 1, so
`(pq.invoice_payload || '').trim()` throws a `TypeError`. -/
theorem c1_counterexample :
    truthy (getField reqPayloadNum1.body "pre_checkout_query") = true ∧
    isWarmId (getField reqPayloadNum1.body "update_id") = false ∧
    handler envBase reqPayloadNum1 = .crashed [] :=
  ⟨rfl, rfl, rfl⟩

/-- C1 as amended: for every POST whose parsed body is a valid update
with nonzero `update_id` and a truthy pre-checkout query, provided the
`invoice_payload` is a string or falsy (so that `(… || '').trim()`
evaluates to a string `payload`), the handler makes exactly the approval
call, whose `ok` field is true exactly when the trimmed payload starts
with "premium_" and which carries an `error_message` field when it does
not, and responds 200 `{ok:true}`. -/
theorem c1_precheckout_approval (env : Env) (req : Req) (update : JSVal)
    (payload : String)
    (hm : jsMethod req = "POST")
    (hp : parsedBody env req = some update)
    (hv : isValidUpdate update = true)
    (hw : isWarmId (getField update "update_id") = false)
    (hq : truthy (getField update "pre_checkout_query") = true)
    (hpl : payloadResult
      (getField (getField update "pre_checkout_query") "invoice_payload") = .ok payload) :
    handler env req = .responded ⟨200, okTrueText⟩
      [⟨approvalUrl env.botToken,
        stringifyText (approvalReqBody (getField update "pre_checkout_query") payload)⟩] ∧
    getField (approvalReqBody (getField update "pre_checkout_query") payload) "ok" =
      .bool (jsStartsWith payload "premium_") ∧
    (jsStartsWith payload "premium_" = false →
      getField (approvalReqBody (getField update "pre_checkout_query") payload)
        "error_message" = .str errorMessageText) := by
  refine ⟨?_, ?_, ?_⟩
  · simp [handler, hm, hp, hv, hw, hq, hpl]
  · by_cases h : jsStartsWith payload "premium_" <;>
      simp [approvalReqBody, getField, JSFields.get, h]
  · intro h
    simp [approvalReqBody, getField, JSFields.get, h]

/-- Witness for the amended C1 at the concrete payload "premium_123". -/
theorem c1_precheckout_approval_witness :
    handler envBase reqPremium = .responded ⟨200, okTrueText⟩
      [⟨approvalUrl envBase.botToken,
        stringifyText (approvalReqBody (getField reqPremium.body "pre_checkout_query")
          "premium_123")⟩] ∧
    getField (approvalReqBody (getField reqPremium.body "pre_checkout_query")
        "premium_123") "ok" = .bool (jsStartsWith "premium_123" "premium_") ∧
    (jsStartsWith "premium_123" "premium_" = false →
      getField (approvalReqBody (getField reqPremium.body "pre_checkout_query")
        "premium_123") "error_message" = .str errorMessageText) :=
  c1_precheckout_approval envBase reqPremium reqPremium.body "premium_123"
    (by rfl) (by rfl) (by rfl) (by rfl) (by rfl) (by rfl)

/-- C4 fails as stated: this POST reaches the pre-checkout branch (the
query is a truthy object), yet the caller gets no 200 — the truthy
non-string `invoice_payload` (an empty object) makes the handler throw
before the approval call is even attempted. -/
theorem c4_counterexample :
    truthy (getField reqPayloadObj.body "pre_checkout_query") = true ∧
    handler envBase reqPayloadObj = .crashed [] :=
  ⟨rfl, rfl⟩

/-- C4 as amended: on the pre-checkout branch, provided the
`invoice_payload` is a string or falsy, the handler responds 200
`{ok:true}` whatever the approval fetch would return — the recorded
approval outcome `a` does not appear in the response. -/
theorem c4_precheckout_always_200 (env : Env) (req : Req) (update : JSVal)
    (payload : String) (a : FetchOutcome)
    (hm : jsMethod req = "POST")
    (hp : parsedBody env req = some update)
    (hv : isValidUpdate update = true)
    (hw : isWarmId (getField update "update_id") = false)
    (hq : truthy (getField update "pre_checkout_query") = true)
    (hpl : payloadResult
      (getField (getField update "pre_checkout_query") "invoice_payload") = .ok payload) :
    handler { env with approval := a } req = .responded ⟨200, okTrueText⟩
      [⟨approvalUrl env.botToken,
        stringifyText (approvalReqBody (getField update "pre_checkout_query") payload)⟩] := by
  have hp' : parsedBody { env with approval := a } req = some update :=
    (parsedBody_set_approval env a req).trans hp
  simp [handler, hm, hp', hv, hw, hq, hpl]

/-- Witness for the amended C4: a concrete pre-checkout POST answered 200
even though the approval fetch would fail. -/
theorem c4_precheckout_always_200_witness :
    handler { envBase with approval := .failure } reqPremium =
      .responded ⟨200, okTrueText⟩
        [⟨approvalUrl envBase.botToken,
          stringifyText (approvalReqBody (getField reqPremium.body "pre_checkout_query")
            "premium_123")⟩] :=
  c4_precheckout_always_200 envBase reqPremium reqPremium.body "premium_123" .failure
    (by rfl) (by rfl) (by rfl) (by rfl) (by rfl) (by rfl)

/-- C9 fails as stated: `invoice_payload` here is the number 5 — not a
string — and instead of defaulting it and answering the query, the
handler throws (`(5).trim` is not a function): no approval call, no
response.  Only falsy payloads are defaulted to the empty string. -/
theorem c9_counterexample :
    handler envBase reqPayloadNum5 = .crashed [] :=
  rfl

/-- C9 as amended: when the pre-checkout query's `invoice_payload` is
missing or otherwise falsy, it is defaulted to the empty string, so the
approval call is made with `ok` false and the error message, and the
caller gets 200 `{ok:true}`.  (A truthy non-string payload instead makes
the handler throw.) -/
theorem c9_falsy_payload_rejected (env : Env) (req : Req) (update : JSVal)
    (hm : jsMethod req = "POST")
    (hp : parsedBody env req = some update)
    (hv : isValidUpdate update = true)
    (hw : isWarmId (getField update "update_id") = false)
    (hq : truthy (getField update "pre_checkout_query") = true)
    (hfalsy : truthy
      (getField (getField update "pre_checkout_query") "invoice_payload") = false) :
    handler env req = .responded ⟨200, okTrueText⟩
      [⟨approvalUrl env.botToken,
        stringifyText (approvalReqBody (getField update "pre_checkout_query") "")⟩] ∧
    getField (approvalReqBody (getField update "pre_checkout_query") "") "ok" =
      .bool false ∧
    getField (approvalReqBody (getField update "pre_checkout_query") "")
      "error_message" = .str errorMessageText := by
  have hpl : payloadResult
      (getField (getField update "pre_checkout_query") "invoice_payload") = .ok "" := by
    simp [payloadResult, hfalsy]
  refine ⟨?_, ?_, ?_⟩
  · simp [handler, hm, hp, hv, hw, hq, hpl]
  · simp [approvalReqBody, getField, JSFields.get, jsStartsWith, List.isPrefixOf]
  · simp [approvalReqBody, getField, JSFields.get, jsStartsWith, List.isPrefixOf]

/-- Witness for the amended C9: a pre-checkout query with no
`invoice_payload` field at all is rejected with the error message and the
caller still gets 200. -/
theorem c9_falsy_payload_rejected_witness :
    handler envBase reqNoPayload = .responded ⟨200, okTrueText⟩
      [⟨approvalUrl envBase.botToken,
        stringifyText (approvalReqBody (getField reqNoPayload.body "pre_checkout_query")
          "")⟩] ∧
    getField (approvalReqBody (getField reqNoPayload.body "pre_checkout_query") "")
      "ok" = .bool false ∧
    getField (approvalReqBody (getField reqNoPayload.body "pre_checkout_query") "")
      "error_message" = .str errorMessageText :=
  c9_falsy_payload_rejected envBase reqNoPayload reqNoPayload.body
    (by rfl) (by rfl) (by rfl) (by rfl) (by rfl) (by rfl)

/-- Setting a header and reading it back yields the new value. -/
theorem headersGet_set (hs : List (String × String)) (k v : String) :
    headersGet (headersSet hs k v) k = some v := by
  induction hs with
  | nil => simp [headersSet, headersGet]
  | cons hd tl ih =>
    rcases hd with ⟨k0, v0⟩
    by_cases h : (k0 == k) = true <;> simp [headersSet, headersGet, h, ih]

/-- C6 fails as stated: on the pre-checkout path with a truthy non-string
`invoice_payload` (here the boolean `true`), the handler throws and sends
no response at all, rather than exactly one. -/
theorem c6_counterexample :
    handler envBase reqPayloadTrue = .crashed [] :=
  rfl

/-- C6 as amended: every invocation sends at most one response, and
exactly one on every path except the pre-checkout path whose
`invoice_payload` is truthy but not a string, where the handler throws
(before any outbound call) and sends none. -/
theorem c6_exactly_one_response (env : Env) (req : Req) :
    (∃ resp calls, handler env req = .responded resp calls) ∨
    (handler env req = .crashed [] ∧
      jsMethod req = "POST" ∧
      ∃ update, parsedBody env req = some update ∧
        isValidUpdate update = true ∧
        isWarmId (getField update "update_id") = false ∧
        truthy (getField update "pre_checkout_query") = true ∧
        payloadResult
          (getField (getField update "pre_checkout_query") "invoice_payload") =
          .error ()) := by
  by_cases hg : jsMethod req = "GET"
  · exact .inl ⟨⟨200, okTrueText⟩, [], by simp [handler, hg]⟩
  by_cases hpost : jsMethod req = "POST"
  · rcases hp : parsedBody env req with _ | update
    · exact .inl ⟨⟨400, okFalseText⟩, [], by simp [handler, hg, hpost, hp]⟩
    by_cases hv : isValidUpdate update = true
    · by_cases hw : isWarmId (getField update "update_id") = true
      · exact .inl ⟨⟨200, okTrueText⟩, [], by simp [handler, hg, hpost, hp, hv, hw]⟩
      by_cases hq : truthy (getField update "pre_checkout_query") = true
      · rcases hpl : payloadResult
          (getField (getField update "pre_checkout_query") "invoice_payload")
          with e | payload
        · cases e
          refine .inr ⟨?_, hpost, update, rfl, hv, ?_, hq, hpl⟩
          · simp [handler, hg, hpost, hp, hv, hw, hq, hpl]
          · simpa using hw
        · exact .inl ⟨⟨200, okTrueText⟩,
            [⟨approvalUrl env.botToken,
              stringifyText (approvalReqBody (getField update "pre_checkout_query")
                payload)⟩],
            by simp [handler, hg, hpost, hp, hv, hw, hq, hpl]⟩
      · rcases hf : env.forward with r | _
        · exact .inl ⟨⟨r.status, r.text⟩, [⟨forwardUrl req, stringifyText update⟩],
            by simp [handler, hg, hpost, hp, hv, hw, hq, hf]⟩
        · exact .inl ⟨⟨502, okFalseText⟩, [⟨forwardUrl req, stringifyText update⟩],
            by simp [handler, hg, hpost, hp, hv, hw, hq, hf]⟩
    · exact .inl ⟨⟨400, okFalseText⟩, [], by simp [handler, hg, hpost, hp, hv]⟩
  · exact .inl ⟨⟨405, okFalseText⟩, [], by simp [handler, hg, hpost]⟩

/-- C7 fails as stated: the downstream handler responded 418 and the
handler mirrored it, so the caller saw a status outside
{200, 400, 405, 502}. -/
theorem c7_counterexample :
    handler envTeapot reqFwd =
      .responded ⟨418, "teapot"⟩ [⟨forwardUrl reqFwd, stringifyText fwdUpdate⟩] ∧
    418 ∉ ([200, 400, 405, 502] : List Nat) :=
  ⟨rfl, by decide⟩

/-- C7 as amended: every response status is one of 200, 400, 405, 502,
except that a successful downstream forward is mirrored verbatim,
whatever status the downstream chose. -/
theorem c7_status_codes (env : Env) (req : Req) (resp : HResp)
    (calls : List OutCall)
    (h : handler env req = .responded resp calls) :
    resp.status ∈ ([200, 400, 405, 502] : List Nat) ∨
    ∃ r, env.forward = .success r ∧ resp.status = r.status := by
  unfold handler at h
  repeat' split at h
  all_goals cases h
  all_goals try (left ; decide)
  all_goals right ; exact ⟨_, by assumption, rfl⟩

/-- Witness for the amended C7 at a concrete GET request, whose response
status 200 falls in the enumerated set. -/
theorem c7_status_codes_witness :
    (⟨200, okTrueText⟩ : HResp).status ∈ ([200, 400, 405, 502] : List Nat) ∨
    ∃ r, envBase.forward = .success r ∧
      (⟨200, okTrueText⟩ : HResp).status = r.status :=
  c7_status_codes envBase reqGet ⟨200, okTrueText⟩ [] (by rfl)

/-- C10 fails as stated: when the upstream fetch throws, the forward was
attempted, but the 500 error response returned to the caller carries no
Access-Control-Allow-Origin header. -/
theorem c10_counterexample :
    (workerFetch proxyEnvErr proxyReqPlain).proxied =
      some (externalUrl ++ "/v1/models" ++ "") ∧
    headersGet (workerFetch proxyEnvErr proxyReqPlain).resp.headers
      "Access-Control-Allow-Origin" = none :=
  ⟨rfl, rfl⟩

/-- C10 as amended: for every non-root, non-OPTIONS request the proxy
forwards to the generative-language host preserving path and query
string; when the upstream fetch yields a response, that response is
returned with status and body preserved and with
`Access-Control-Allow-Origin: *` set; when the fetch throws, the caller
gets a 500 JSON error without that header. -/
theorem c10_proxy_forwards (env : ProxyEnv) (req : ProxyReq)
    (h1 : req.pathname ≠ "/") (h2 : req.pathname ≠ "")
    (h3 : req.method ≠ "OPTIONS") :
    (workerFetch env req).proxied =
      some (externalUrl ++ req.pathname ++ req.search) ∧
    (∀ r, env.upstream = .success r →
      (workerFetch env req).resp.status = r.status ∧
      (workerFetch env req).resp.body = r.body ∧
      headersGet (workerFetch env req).resp.headers
        "Access-Control-Allow-Origin" = some "*") ∧
    (∀ msg, env.upstream = .failure msg →
      (workerFetch env req).resp.status = 500 ∧
      headersGet (workerFetch env req).resp.headers
        "Access-Control-Allow-Origin" = none) := by
  refine ⟨?_, ?_, ?_⟩
  · rcases hu : env.upstream with r | msg <;> simp [workerFetch, h1, h2, h3, hu]
  · intro r hu
    simp [workerFetch, h1, h2, h3, hu, headersGet_set]
  · intro msg hu
    simp [workerFetch, h1, h2, h3, hu, headersGet]

/-- Witness for the amended C10 at a concrete request with a query
string and a successful upstream fetch. -/
theorem c10_proxy_forwards_witness :
    (workerFetch proxyEnvOk proxyReqModels).proxied =
      some (externalUrl ++ proxyReqModels.pathname ++ proxyReqModels.search) ∧
    (∀ r, proxyEnvOk.upstream = .success r →
      (workerFetch proxyEnvOk proxyReqModels).resp.status = r.status ∧
      (workerFetch proxyEnvOk proxyReqModels).resp.body = r.body ∧
      headersGet (workerFetch proxyEnvOk proxyReqModels).resp.headers
        "Access-Control-Allow-Origin" = some "*") ∧
    (∀ msg, proxyEnvOk.upstream = .failure msg →
      (workerFetch proxyEnvOk proxyReqModels).resp.status = 500 ∧
      headersGet (workerFetch proxyEnvOk proxyReqModels).resp.headers
        "Access-Control-Allow-Origin" = none) :=
  c10_proxy_forwards proxyEnvOk proxyReqModels (by decide) (by decide) (by decide)
